import Mathlib

/-!
# Verification of the `infera` dashboard glue layer (`src/inf4.py`)

This file gives a shallow embedding of the single source file `inf4.py`:
a Streamlit dashboard that uploads a CSV, calls the LIDA generative-AI
library to summarize / generate goals / generate charts, uploads the chart
to Google Drive, and persists records to Airtable.

External services (LIDA, requests.post, Google Drive, the base64/PIL
decoder) are modelled as oracles: each call site receives, as input, the
outcome the external world would produce there (`Except PyErr α`: either a
raised exception or a returned value).  The Python control flow — the two
`try/except` blocks, the `if result:` truthiness checks, the unguarded
`goals[0]` / `charts[0]` indexing — is translated statement by statement.

UI side effects (`st.error`, `st.success`, `st.warning`, `st.info`,
`st.write`, `st.image`) are recorded as an ordered event list, and the
Streamlit session state (`csv_file_path`, `summary`, `generated_charts`,
`chart_names`) is passed explicitly.  An exception that no `try/except`
catches terminates the flow with `uncaught = some e`.
-/

/-- A raised Python exception, identified by its display text `str(e)`. -/
abbrev PyErr := String

/-- An opaque decoded bitmap (the PIL `Image` object), identified by a tag. -/
abbrev Image := Nat

/-- An opaque Python value as returned by `response.json()`: all the program
ever does with it is interpolate `str(x)` into a message and test `bool(x)`
(the `if result:` checks), so it is modelled by those two observations.
For a JSON object decoded by `requests`, `truthy` is false exactly when the
object is empty (Python `bool({})` is `False`). -/
structure PyObj where
  selfRepr : String
  truthy : Bool
deriving DecidableEq

/-- An HTTP response from `requests.post`, as used by the program:
its status code and its already-parsed JSON body. -/
structure Response where
  status_code : Nat
  body : PyObj
deriving DecidableEq

/-- The summary returned by `lida.summarize`: the code distinguishes only
`isinstance(summary, dict)` (converted with `str`) from the plain case
(used as a string directly). -/
inductive SummaryV
  | text (s : String)
  | dict (v : PyObj)
deriving DecidableEq

/-- `str(summary)` for a dict summary, the summary itself otherwise —
the `summary_text` normalization done at lines 196–199 and 233–236. -/
def SummaryV.pyStr : SummaryV → String
  | .text s => s
  | .dict v => v.selfRepr

/-- One chart returned by `lida.visualize`; the program reads only its
`raster` field (a base64-encoded PNG string). -/
structure Chart where
  raster : String
deriving DecidableEq

/-- A user-visible UI side effect emitted through Streamlit. -/
inductive UIEvent
  | errorMsg (msg : String)
  | successMsg (msg : String)
  | warningMsg (msg : String)
  | infoMsg (msg : String)
  | writeText (s : String)
  | imageShown (img : Image)
deriving DecidableEq

/-- `True` exactly on `st.error` events. -/
def UIEvent.isError : UIEvent → Bool
  | .errorMsg _ => true
  | _ => false

/-- `True` exactly on `st.success` events. -/
def UIEvent.isSuccess : UIEvent → Bool
  | .successMsg _ => true
  | _ => false

/-- `True` exactly on `st.image` events. -/
def UIEvent.isImage : UIEvent → Bool
  | .imageShown _ => true
  | _ => false

/-- The Streamlit session state initialized at lines 126–137 of `inf4.py`. -/
structure SessionState where
  csv_file_path : Option String
  summary : Option String
  generated_charts : List Image
  chart_names : List String
deriving DecidableEq

/-- The session state right after initialization: no CSV, no summary,
empty chart lists. -/
def initialState : SessionState :=
  { csv_file_path := none, summary := none,
    generated_charts := [], chart_names := [] }

/-- Python truthiness of `st.session_state.csv_file_path`
(`None` and the empty string are falsy). -/
def pathTruthy : Option String → Bool
  | none => false
  | some p => p ≠ ""

/-- `save_to_airtable_summaries` (lines 68–95), given the `requests.post`
response: on a non-200 status it shows the response body as an `st.error`
and returns the body; on 200 it returns the body silently.  In both cases
the body is returned as a value — the function raises nothing itself. -/
def save_to_airtable_summaries (resp : Response) : List UIEvent × PyObj :=
  if resp.status_code ≠ 200 then
    ([UIEvent.errorMsg ("Failed to save summary to Airtable: " ++ resp.body.selfRepr)],
     resp.body)
  else
    ([], resp.body)

/-- `save_to_airtable_visualizations` (lines 97–124), given the
`requests.post` response: same shape as the summaries saver. -/
def save_to_airtable_visualizations (resp : Response) : List UIEvent × PyObj :=
  if resp.status_code ≠ 200 then
    ([UIEvent.errorMsg ("Failed to save visualization to Airtable: " ++ resp.body.selfRepr)],
     resp.body)
  else
    ([], resp.body)

/-- Python's message for an out-of-range list index. -/
def indexErrorMsg : PyErr := "IndexError: list index out of range"

/-- The upload-and-persist `try/except` block shared by both flows
(lines 205–216 and 247–257).  `showImgInside` is `true` for the Summarize
flow, where `st.image(img)` sits inside the `try` after the upload
(line 208), and `false` for the Question flow, where the image was already
shown before the block (line 245).  `upload` is the outcome of
`upload_image_to_drive`, `saveCall` the outcome of the `requests.post`
inside `save_to_airtable_visualizations`.  Any exception is caught by the
`except` and shown with `st.error`; on a truthy saver result the success
message is shown and the (image, label) pair is appended to session state. -/
def uploadPersistStep (showImgInside : Bool) (label : String) (img : Image)
    (upload : Except PyErr String) (saveCall : Except PyErr Response)
    (s : SessionState) : List UIEvent × SessionState :=
  match upload with
  | .error e =>
      ([UIEvent.errorMsg ("Error saving visualization to Airtable: " ++ e)], s)
  | .ok _ =>
      let pre := if showImgInside then [UIEvent.imageShown img] else []
      match saveCall with
      | .error e =>
          (pre ++ [UIEvent.errorMsg ("Error saving visualization to Airtable: " ++ e)], s)
      | .ok resp =>
          let r := save_to_airtable_visualizations resp
          if r.2.truthy then
            (pre ++ r.1 ++ [UIEvent.successMsg "Visualization saved to Airtable successfully!"],
             { s with generated_charts := s.generated_charts ++ [img],
                      chart_names := s.chart_names ++ [label] })
          else
            (pre ++ r.1, s)

/-- The outcome of running one flow: the UI events emitted in order, the
final session state, and the exception that escaped every handler, if any. -/
structure FlowResult where
  events : List UIEvent
  state : SessionState
  uncaught : Option PyErr
deriving DecidableEq

/-- The external world consulted by one run of the Summarize flow: the
outcome of each external call, in program order. -/
structure SummarizeWorld where
  summarizeResult : Except PyErr SummaryV
  saveSummaryCall : Except PyErr Response
  goalsResult : Except PyErr (List String)
  visualizeResult : Except PyErr (List Chart)
  decodeResult : Except PyErr Image
  uploadResult : Except PyErr String
  saveVizCall : Except PyErr Response

/-- The `menu == "Summarize"` branch (lines 164–216), run with a file
present in the uploader.  Steps, in source order: set `csv_file_path`;
`lida.summarize` and `st.write` it; `try` the summary save (`st.error` on
exception, `st.success` on truthy result); `lida.goals` and write each
goal; read `goals[0]` (IndexError if empty); `lida.visualize`; read
`charts[0].raster` (IndexError if empty); `base64_to_image` (uncaught on
decode failure); then the upload-and-persist `try` block with the image
shown inside it and the label `"Summary Chart"`. -/
def summarizeFlow (w : SummarizeWorld) (s0 : SessionState) : FlowResult :=
  let s1 := { s0 with csv_file_path := some "filename.csv" }
  match w.summarizeResult with
  | .error e => { events := [], state := s1, uncaught := some e }
  | .ok summary =>
    let ev1 := [UIEvent.writeText summary.pyStr]
    let ev2 :=
      match w.saveSummaryCall with
      | .error e => [UIEvent.errorMsg ("Error saving summary to Airtable: " ++ e)]
      | .ok resp =>
          let r := save_to_airtable_summaries resp
          r.1 ++ (if r.2.truthy then [UIEvent.successMsg "Summary saved to Airtable successfully!"] else [])
    match w.goalsResult with
    | .error e => { events := ev1 ++ ev2, state := s1, uncaught := some e }
    | .ok goals =>
      let ev3 := goals.map UIEvent.writeText
      match goals with
      | [] => { events := ev1 ++ ev2 ++ ev3, state := s1, uncaught := some indexErrorMsg }
      | _ :: _ =>
        match w.visualizeResult with
        | .error e => { events := ev1 ++ ev2 ++ ev3, state := s1, uncaught := some e }
        | .ok charts =>
          match charts with
          | [] => { events := ev1 ++ ev2 ++ ev3, state := s1, uncaught := some indexErrorMsg }
          | _ :: _ =>
            match w.decodeResult with
            | .error e => { events := ev1 ++ ev2 ++ ev3, state := s1, uncaught := some e }
            | .ok img =>
              let r := uploadPersistStep true "Summary Chart" img w.uploadResult w.saveVizCall s1
              { events := ev1 ++ ev2 ++ ev3 ++ r.1, state := r.2, uncaught := none }

/-- The external world consulted by one run of the Question-based flow. -/
structure QuestionWorld where
  summarizeResult : Except PyErr SummaryV
  visualizeResult : Except PyErr (List Chart)
  decodeResult : Except PyErr Image
  uploadResult : Except PyErr String
  saveVizCall : Except PyErr Response

/-- The `menu == "Question based Graph"` branch (lines 218–259), run with
the Generate button pressed and `queryText` in the text area.  If
`csv_file_path` is falsy, only the `st.warning` is emitted and nothing else
runs.  Otherwise, for a nonempty query: `st.info` the query;
`lida.summarize`; `lida.visualize` with the query as goal; read
`charts[0].raster` (IndexError if empty); decode; `st.image` the bitmap
(before the `try`); then the upload-and-persist `try` block labelled with
the query text. -/
def questionFlow (w : QuestionWorld) (queryText : String) (s0 : SessionState) : FlowResult :=
  if pathTruthy s0.csv_file_path then
    if queryText.length > 0 then
      let ev0 := [UIEvent.infoMsg ("Your Query: " ++ queryText)]
      match w.summarizeResult with
      | .error e => { events := ev0, state := s0, uncaught := some e }
      | .ok _ =>
        match w.visualizeResult with
        | .error e => { events := ev0, state := s0, uncaught := some e }
        | .ok charts =>
          match charts with
          | [] => { events := ev0, state := s0, uncaught := some indexErrorMsg }
          | _ :: _ =>
            match w.decodeResult with
            | .error e => { events := ev0, state := s0, uncaught := some e }
            | .ok img =>
              let evImg := [UIEvent.imageShown img]
              let r := uploadPersistStep false queryText img w.uploadResult w.saveVizCall s0
              { events := ev0 ++ evImg ++ r.1, state := r.2, uncaught := none }
    else
      { events := [], state := s0, uncaught := none }
  else
    { events := [UIEvent.warningMsg "Please upload a CSV file first."], state := s0,
      uncaught := none }

/-- The hardcoded service-account path at line 33 of `inf4.py` — a GitHub
URL string used as a local file path, not a value read from configuration. -/
def SERVICE_ACCOUNT_FILE : String :=
  "https://github.com/ninjaksahni/infera/blob/37fde489e48d10cc1f2fc9f17767052079e87d7e/infera1-49e3d49a0ee5.json"

/-- Python truthiness of one environment variable, as `all([...])` sees it. -/
def envTruthy (v : Option String) : Bool :=
  match v with
  | none => false
  | some s => s ≠ ""

/-- Module-level startup (lines 14–37): read `OPENAI_API_KEY` (raise
`ValueError` when `None`); read the four Airtable variables (raise
`ValueError` when any is falsy); then load the Google service-account
credentials from the hardcoded `SERVICE_ACCOUNT_FILE` path —
`readFile : String → Except PyErr Unit` is the filesystem oracle for
`from_service_account_file`, whose failure propagates as-is.  Returns
`ok` when the module body reaches line 40. -/
def startup (env : String → Option String) (readFile : String → Except PyErr Unit) :
    Except PyErr Unit :=
  if (env "OPENAI_API_KEY").isNone then
    Except.error "ValueError: OpenAI API key is not set."
  else if ¬ (envTruthy (env "AIRTABLE_BASE_ID")
      ∧ envTruthy (env "AIRTABLE_SUMMARIES_TABLE_NAME")
      ∧ envTruthy (env "AIRTABLE_VISUALIZATIONS_TABLE_NAME")
      ∧ envTruthy (env "AIRTABLE_PAT")) then
    Except.error "ValueError: Airtable credentials are not set."
  else
    match readFile SERVICE_ACCOUNT_FILE with
    | .error e => Except.error e
    | .ok _ => Except.ok ()

/-! ## Concrete fixtures -/

/-- A 200 response with a typical non-empty (hence truthy) record body. -/
def respOk : Response := ⟨200, ⟨"\x7b\x22id\x22: \x22recA\x22\x7d", true⟩⟩

/-- A 201 Created response: a 2xx status that is not 200. -/
def resp201 : Response := ⟨201, ⟨"\x7b\x22id\x22: \x22recB\x22\x7d", true⟩⟩

/-- A 500 response whose JSON body is the empty object — falsy in Python. -/
def resp500empty : Response := ⟨500, ⟨"\x7b\x7d", false⟩⟩

/-- A Summarize-flow world in which every external call succeeds. -/
def wSok : SummarizeWorld :=
  { summarizeResult := .ok (.text "S"),
    saveSummaryCall := .ok respOk,
    goalsResult := .ok ["g1", "g2"],
    visualizeResult := .ok [⟨"iVBORw0KGgo"⟩],
    decodeResult := .ok 7,
    uploadResult := .ok "https://drive.example/view/1",
    saveVizCall := .ok respOk }

/-- A Question-flow world in which every external call succeeds. -/
def wQok : QuestionWorld :=
  { summarizeResult := .ok (.text "S"),
    visualizeResult := .ok [⟨"iVBORw0KGgo"⟩],
    decodeResult := .ok 9,
    uploadResult := .ok "https://drive.example/view/2",
    saveVizCall := .ok respOk }

/-- A session state in which a CSV has already been uploaded. -/
def sWithCsv : SessionState :=
  { csv_file_path := some "filename.csv", summary := none,
    generated_charts := [], chart_names := [] }

/-- Like `wSok`, except the summary-persistence post raises. -/
def wSokSaveFails : SummarizeWorld :=
  { wSok with saveSummaryCall := .error "ConnectionError" }

/-- Like `wSok`, except `base64_to_image` raises a decode error. -/
def wDecodeFails : SummarizeWorld :=
  { wSok with decodeResult := .error "binascii.Error: Invalid base64-encoded string" }

/-- Like `wSok`, except the Google Drive upload raises. -/
def wUploadFails : SummarizeWorld :=
  { wSok with uploadResult := .error "HttpError 403" }

/-- Like `wQok`, except the visualization-save post returns the 500
response with the falsy empty-object body. -/
def wQviz500empty : QuestionWorld :=
  { wQok with saveVizCall := .ok resp500empty }

/-- Like `wSok`, except the visualization-save post returns a 500 response
with a truthy error body. -/
def wSviz500 : SummarizeWorld :=
  { wSok with saveVizCall := .ok ⟨500, ⟨"\x7b\x22error\x22: \x22INTERNAL\x22\x7d", true⟩⟩ }

/-- Like `wQok`, except the visualization-save post returns a 500 response
with a truthy error body. -/
def wQviz500 : QuestionWorld :=
  { wQok with saveVizCall := .ok ⟨500, ⟨"\x7b\x22error\x22: \x22INTERNAL\x22\x7d", true⟩⟩ }

/-- Like `wSok`, except the goal generator returns the empty list. -/
def wGoalsEmpty : SummarizeWorld :=
  { wSok with goalsResult := .ok [] }

/-- Like `wSok`, except the visualizer returns the empty list. -/
def wChartsEmpty : SummarizeWorld :=
  { wSok with visualizeResult := .ok [] }

/-- Like `wQok`, except the visualizer returns the empty list. -/
def wQchartsEmpty : QuestionWorld :=
  { wQok with visualizeResult := .ok [] }

/-- An environment defining exactly the five variables the module reads —
and, in particular, containing no storage-service credential of any name. -/
def envNoStorage : String → Option String := fun k =>
  if k = "OPENAI_API_KEY" ∨ k = "AIRTABLE_BASE_ID"
      ∨ k = "AIRTABLE_SUMMARIES_TABLE_NAME"
      ∨ k = "AIRTABLE_VISUALIZATIONS_TABLE_NAME" ∨ k = "AIRTABLE_PAT" then
    some "x"
  else
    none

/-- A filesystem oracle on which every read succeeds. -/
def readAnyOk : String → Except PyErr Unit := fun _ => Except.ok ()

/-- Like `wSok`, except `lida.summarize` raises. -/
def wSummarizeRaises : SummarizeWorld :=
  { wSok with summarizeResult := .error "APIError" }

/-- Like `wSok`, except `lida.goals` raises. -/
def wGoalsRaise : SummarizeWorld :=
  { wSok with goalsResult := .error "RateLimitError" }

/-- Like `wSok`, except `lida.visualize` raises. -/
def wVizRaise : SummarizeWorld :=
  { wSok with visualizeResult := .error "ValueError" }

/-- Like `wSok`, except the visualization-save post raises. -/
def wSaveVizRaises : SummarizeWorld :=
  { wSok with saveVizCall := .error "Timeout" }

/-- Like `wQok`, except `lida.summarize` raises. -/
def wQsummarizeRaises : QuestionWorld :=
  { wQok with summarizeResult := .error "APIError" }

/-- Like `wQok`, except `lida.visualize` raises. -/
def wQvizRaise : QuestionWorld :=
  { wQok with visualizeResult := .error "ValueError" }

/-- Like `wQok`, except `base64_to_image` raises a decode error. -/
def wQdecodeFails : QuestionWorld :=
  { wQok with decodeResult := .error "binascii.Error: Invalid base64-encoded string" }

/-- Like `wQok`, except the Google Drive upload raises. -/
def wQuploadFails : QuestionWorld :=
  { wQok with uploadResult := .error "HttpError 403" }

/-! ## C1 -/

/--
C1 (counterexample).  The claim says any 2xx status is treated as success;
but `save_to_airtable_summaries` / `save_to_airtable_visualizations` test
`status_code != 200`, so the 2xx status 201 is treated as failure: both
savers emit the `st.error` event on a 201 response.
-/
theorem C1_counterexample :
    200 ≤ resp201.status_code ∧ resp201.status_code < 300 ∧
    (save_to_airtable_summaries resp201).1 =
      [UIEvent.errorMsg ("Failed to save summary to Airtable: " ++ resp201.body.selfRepr)] ∧
    (save_to_airtable_visualizations resp201).1 =
      [UIEvent.errorMsg ("Failed to save visualization to Airtable: " ++ resp201.body.selfRepr)] := by
  refine ⟨by decide, by decide, rfl, rfl⟩

/--
C1 (amended).  For every HTTP response to a spreadsheet save call, a
response with status exactly 200 is treated as success and any other
status (2xx or not) as failure: the failure body is shown as a user-visible
`st.error`, and in every case the body is returned to the caller as a
value, never raised as an exception.
-/
theorem C1_save_status_split (resp : Response) :
    save_to_airtable_summaries resp =
      ((if resp.status_code = 200 then []
        else [UIEvent.errorMsg ("Failed to save summary to Airtable: " ++ resp.body.selfRepr)]),
       resp.body) ∧
    save_to_airtable_visualizations resp =
      ((if resp.status_code = 200 then []
        else [UIEvent.errorMsg ("Failed to save visualization to Airtable: " ++ resp.body.selfRepr)]),
       resp.body) := by
  by_cases h : resp.status_code = 200 <;>
    simp [save_to_airtable_summaries, save_to_airtable_visualizations, h]

/-! ## Helper lemmas -/

/-- The upload-and-persist block either leaves the state unchanged or
appends the image and its label together, one to each list: the two
appends at lines 213–214 / 254–255 are adjacent and unconditional inside
the same `if result:` branch, so no execution extends one list without the
other. -/
theorem uploadPersistStep_state_cases (b : Bool) (label : String) (img : Image)
    (u : Except PyErr String) (v : Except PyErr Response) (s : SessionState) :
    (uploadPersistStep b label img u v s).2 = s ∨
    (uploadPersistStep b label img u v s).2 =
      { s with generated_charts := s.generated_charts ++ [img],
               chart_names := s.chart_names ++ [label] } := by
  unfold uploadPersistStep
  cases u with
  | error e => exact Or.inl rfl
  | ok url =>
    cases v with
    | error e => exact Or.inl rfl
    | ok resp =>
      by_cases ht : (save_to_airtable_visualizations resp).2.truthy
      · right; simp [ht]
      · left; simp [ht]

/-- The final state of the Summarize flow is either the input state with
`csv_file_path` set, or the result of the upload-and-persist block on it. -/
theorem summarizeFlow_state_cases (w : SummarizeWorld) (s : SessionState) :
    (summarizeFlow w s).state = { s with csv_file_path := some "filename.csv" } ∨
    ∃ img, (summarizeFlow w s).state =
      (uploadPersistStep true "Summary Chart" img w.uploadResult w.saveVizCall
        { s with csv_file_path := some "filename.csv" }).2 := by
  obtain ⟨sr, ssc, gr, vr, dr, ur, svc⟩ := w
  cases sr with
  | error e => exact Or.inl rfl
  | ok summary =>
    cases gr with
    | error e => exact Or.inl rfl
    | ok goals =>
      cases goals with
      | nil => exact Or.inl rfl
      | cons g gs =>
        cases vr with
        | error e => exact Or.inl rfl
        | ok charts =>
          cases charts with
          | nil => exact Or.inl rfl
          | cons c cs =>
            cases dr with
            | error e => exact Or.inl rfl
            | ok img => exact Or.inr ⟨img, rfl⟩

/-- The final state of the Question flow is either the input state
unchanged, or the result of the upload-and-persist block on it. -/
theorem questionFlow_state_cases (w : QuestionWorld) (q : String) (s : SessionState) :
    (questionFlow w q s).state = s ∨
    ∃ img, (questionFlow w q s).state =
      (uploadPersistStep false q img w.uploadResult w.saveVizCall s).2 := by
  obtain ⟨sr, vr, dr, ur, svc⟩ := w
  unfold questionFlow
  by_cases hp : pathTruthy s.csv_file_path
  · by_cases hq : q.length > 0
    · simp only [hp, hq, if_true]
      cases sr with
      | error e => exact Or.inl rfl
      | ok summary =>
        cases vr with
        | error e => exact Or.inl rfl
        | ok charts =>
          cases charts with
          | nil => exact Or.inl rfl
          | cons c cs =>
            cases dr with
            | error e => exact Or.inl rfl
            | ok img => exact Or.inr ⟨img, rfl⟩
    · simp [hp, hq]
  · simp [hp]

/-! ## C2 -/

/--
C2.  After any execution of the Summarize flow or the Question-based flow —
whatever the outcomes of the external calls, including uncaught exceptions —
the session-state lists `generated_charts` and `chart_names` have equal
length (provided they did before; they start out as two empty lists) and
remain index-aligned: the two lists are either exactly the lists the flow
started with, or those lists with the new chart appended to one and its
label (`"Summary Chart"`, resp. the query text) appended to the other at
the same index, so the entry at each index of `chart_names` labels the
chart at the same index of `generated_charts`.
-/
theorem C2_chart_lists_aligned (wS : SummarizeWorld) (wQ : QuestionWorld)
    (q : String) (s : SessionState)
    (h : s.generated_charts.length = s.chart_names.length) :
    ((summarizeFlow wS s).state.generated_charts.length =
       (summarizeFlow wS s).state.chart_names.length ∧
     (((summarizeFlow wS s).state.generated_charts = s.generated_charts ∧
        (summarizeFlow wS s).state.chart_names = s.chart_names) ∨
      (∃ img, (summarizeFlow wS s).state.generated_charts = s.generated_charts ++ [img] ∧
        (summarizeFlow wS s).state.chart_names = s.chart_names ++ ["Summary Chart"]))) ∧
    ((questionFlow wQ q s).state.generated_charts.length =
       (questionFlow wQ q s).state.chart_names.length ∧
     (((questionFlow wQ q s).state.generated_charts = s.generated_charts ∧
        (questionFlow wQ q s).state.chart_names = s.chart_names) ∨
      (∃ img, (questionFlow wQ q s).state.generated_charts = s.generated_charts ++ [img] ∧
        (questionFlow wQ q s).state.chart_names = s.chart_names ++ [q]))) := by
  constructor
  · rcases summarizeFlow_state_cases wS s with hst | ⟨img, hst⟩
    · rw [hst]; exact ⟨h, Or.inl ⟨rfl, rfl⟩⟩
    · rcases uploadPersistStep_state_cases true "Summary Chart" img wS.uploadResult
        wS.saveVizCall { s with csv_file_path := some "filename.csv" } with h2 | h2
      · rw [hst, h2]; exact ⟨h, Or.inl ⟨rfl, rfl⟩⟩
      · rw [hst, h2]; exact ⟨by simp [h], Or.inr ⟨img, rfl, rfl⟩⟩
  · rcases questionFlow_state_cases wQ q s with hst | ⟨img, hst⟩
    · rw [hst]; exact ⟨h, Or.inl ⟨rfl, rfl⟩⟩
    · rcases uploadPersistStep_state_cases false q img wQ.uploadResult
        wQ.saveVizCall s with h2 | h2
      · rw [hst, h2]; exact ⟨h, Or.inl ⟨rfl, rfl⟩⟩
      · rw [hst, h2]; exact ⟨by simp [h], Or.inr ⟨img, rfl, rfl⟩⟩

/--
C2 (witness): the invariant holds concretely starting from the freshly
initialized session state with all-successful worlds: both flows append
one chart paired with its label.
-/
theorem C2_chart_lists_aligned_witness :
    initialState.generated_charts.length = initialState.chart_names.length ∧
    (((summarizeFlow wSok initialState).state.generated_charts.length =
        (summarizeFlow wSok initialState).state.chart_names.length ∧
      (((summarizeFlow wSok initialState).state.generated_charts =
          initialState.generated_charts ∧
        (summarizeFlow wSok initialState).state.chart_names =
          initialState.chart_names) ∨
       (∃ img, (summarizeFlow wSok initialState).state.generated_charts =
          initialState.generated_charts ++ [img] ∧
        (summarizeFlow wSok initialState).state.chart_names =
          initialState.chart_names ++ ["Summary Chart"]))) ∧
     ((questionFlow wQok "q" initialState).state.generated_charts.length =
        (questionFlow wQok "q" initialState).state.chart_names.length ∧
      (((questionFlow wQok "q" initialState).state.generated_charts =
          initialState.generated_charts ∧
        (questionFlow wQok "q" initialState).state.chart_names =
          initialState.chart_names) ∨
       (∃ img, (questionFlow wQok "q" initialState).state.generated_charts =
          initialState.generated_charts ++ [img] ∧
        (questionFlow wQok "q" initialState).state.chart_names =
          initialState.chart_names ++ ["q"])))) :=
  ⟨rfl, C2_chart_lists_aligned wSok wQok "q" initialState rfl⟩

/-! ## C7 -/

/--
C7.  If the Question-based flow runs while no CSV has been uploaded
(`csv_file_path` is `None`), it emits exactly the blocking warning, leaves
the state untouched, raises nothing — and its result is independent of the
external world, i.e. neither the summarizer nor any other external service
is consulted.
-/
theorem C7_question_requires_csv (w w2 : QuestionWorld) (q : String)
    (s : SessionState) (h : s.csv_file_path = none) :
    questionFlow w q s =
      { events := [UIEvent.warningMsg "Please upload a CSV file first."],
        state := s, uncaught := none } ∧
    questionFlow w q s = questionFlow w2 q s := by
  have hp : pathTruthy s.csv_file_path = false := by rw [h]; rfl
  constructor <;> simp [questionFlow, hp]

/--
C7 (witness): concretely, with no CSV uploaded, a world where every call
succeeds and a world where every call raises give the same warning-only
result.
-/
theorem C7_question_requires_csv_witness :
    initialState.csv_file_path = none ∧
    (questionFlow wQok "show a bar chart" initialState =
       { events := [UIEvent.warningMsg "Please upload a CSV file first."],
         state := initialState, uncaught := none } ∧
     questionFlow wQok "show a bar chart" initialState =
       questionFlow
         { summarizeResult := .error "boom", visualizeResult := .error "boom",
           decodeResult := .error "boom", uploadResult := .error "boom",
           saveVizCall := .error "boom" } "show a bar chart" initialState) :=
  ⟨rfl, C7_question_requires_csv wQok _ "show a bar chart" initialState rfl⟩

/-! ## More helper lemmas -/

/-- The `st.write(goal)` loop emits no `st.error` events. -/
theorem goalWrites_filter_isError (gs : List String) :
    (gs.map UIEvent.writeText).filter UIEvent.isError = [] := by
  induction gs with
  | nil => rfl
  | cons g gs ih => simp [UIEvent.isError, ih]

/-- The `st.write(goal)` loop emits no `st.image` events. -/
theorem goalWrites_filter_isImage (gs : List String) :
    (gs.map UIEvent.writeText).filter UIEvent.isImage = [] := by
  induction gs with
  | nil => rfl
  | cons g gs ih => simp [UIEvent.isImage, ih]

/-- The summary-save step (the first `try` block of the Summarize flow,
reached with the post call returning response `resp`) emits no `st.image`
events, whatever the status code or body. -/
theorem summarySaveEvents_filter_isImage (resp : Response) :
    (((save_to_airtable_summaries resp).1 ++
        (if (save_to_airtable_summaries resp).2.truthy then
          [UIEvent.successMsg "Summary saved to Airtable successfully!"] else [])).filter
      UIEvent.isImage) = [] := by
  by_cases h : resp.status_code = 200 <;>
    by_cases ht : resp.body.truthy <;>
      simp [save_to_airtable_summaries, h, ht, UIEvent.isImage]

/-! ## C5 -/

/--
C5.  In the upload-and-persist block of either flow (the Summarize variant
has `showImgInside = true`, the Question variant `false`): if the upload
call raises, or the upload returns and the visualization-save post raises,
the caught exception is shown as an `st.error` and the session state —
all four fields — is exactly the state the block was entered with; earlier
steps' effects (already part of that entry state) remain in place.
-/
theorem C5_upload_step_exception_no_mutation (b : Bool) (label : String)
    (img : Image) (s : SessionState) (u : Except PyErr String)
    (v : Except PyErr Response) (e : PyErr)
    (h : u = .error e ∨ (∃ url, u = .ok url ∧ v = .error e)) :
    (uploadPersistStep b label img u v s).2 = s ∧
    UIEvent.errorMsg ("Error saving visualization to Airtable: " ++ e) ∈
      (uploadPersistStep b label img u v s).1 := by
  rcases h with h | ⟨url, hu, hv⟩
  · subst h; simp [uploadPersistStep]
  · subst hu; subst hv; simp [uploadPersistStep]

/--
C5 (witness): concretely, a failing upload in the Summarize variant leaves
the entered state (with its CSV path and an existing chart pair) unchanged
and shows the error.
-/
theorem C5_upload_step_exception_no_mutation_witness :
    ((Except.error "HttpError 403" : Except PyErr String) = .error "HttpError 403" ∨
      (∃ url, (Except.error "HttpError 403" : Except PyErr String) = .ok url ∧
        (Except.ok respOk : Except PyErr Response) = .error "HttpError 403")) ∧
    ((uploadPersistStep true "Summary Chart" 7 (.error "HttpError 403") (.ok respOk)
        { sWithCsv with generated_charts := [5], chart_names := ["old"] }).2 =
      { sWithCsv with generated_charts := [5], chart_names := ["old"] } ∧
     UIEvent.errorMsg ("Error saving visualization to Airtable: " ++ "HttpError 403") ∈
      (uploadPersistStep true "Summary Chart" 7 (.error "HttpError 403") (.ok respOk)
        { sWithCsv with generated_charts := [5], chart_names := ["old"] }).1) :=
  ⟨Or.inl rfl,
   C5_upload_step_exception_no_mutation true "Summary Chart" 7
     { sWithCsv with generated_charts := [5], chart_names := ["old"] }
     (.error "HttpError 403") (.ok respOk) "HttpError 403" (Or.inl rfl)⟩

/-! ## C6 -/

/--
C6.  In the Summarize flow, if the summary-persistence post raises an
exception, the `except` shows the error and the flow still continues:
every goal is written, the image is decoded, displayed, and the flow
terminates normally (no uncaught exception) — goal generation,
visualization and chart display all run despite the failure.
-/
theorem C6_summary_save_failure_nonblocking (w : SummarizeWorld)
    (s : SessionState) (e : PyErr) (sm : SummaryV) (g : String)
    (gs : List String) (c : Chart) (cs : List Chart) (img : Image)
    (url : String) (r : Response)
    (h1 : w.summarizeResult = .ok sm)
    (h2 : w.saveSummaryCall = .error e)
    (h3 : w.goalsResult = .ok (g :: gs))
    (h4 : w.visualizeResult = .ok (c :: cs))
    (h5 : w.decodeResult = .ok img)
    (h6 : w.uploadResult = .ok url)
    (h7 : w.saveVizCall = .ok r) :
    (summarizeFlow w s).uncaught = none ∧
    UIEvent.errorMsg ("Error saving summary to Airtable: " ++ e) ∈
      (summarizeFlow w s).events ∧
    (∀ gg ∈ g :: gs, UIEvent.writeText gg ∈ (summarizeFlow w s).events) ∧
    UIEvent.imageShown img ∈ (summarizeFlow w s).events := by
  obtain ⟨sr, ssc, gr, vr, dr, ur, svc⟩ := w
  simp only at h1 h2 h3 h4 h5 h6 h7
  subst h1 h2 h3 h4 h5 h6 h7
  refine ⟨?_, ?_, ?_, ?_⟩
  · by_cases ht : (save_to_airtable_visualizations r).2.truthy <;>
      simp [summarizeFlow, uploadPersistStep, ht]
  · by_cases ht : (save_to_airtable_visualizations r).2.truthy <;>
      simp [summarizeFlow, uploadPersistStep, ht]
  · intro gg hgg
    rcases List.mem_cons.mp hgg with hgg | hgg
    · subst hgg
      by_cases ht : (save_to_airtable_visualizations r).2.truthy <;>
        simp [summarizeFlow, uploadPersistStep, ht]
    · by_cases ht : (save_to_airtable_visualizations r).2.truthy <;>
        simp [summarizeFlow, uploadPersistStep, ht, hgg]
  · by_cases ht : (save_to_airtable_visualizations r).2.truthy <;>
      simp [summarizeFlow, uploadPersistStep, ht]

/--
C6 (witness): concretely, with the summary post raising and all other
calls succeeding, the flow ends without an uncaught exception, shows the
summary-save error, writes both goals and displays the chart.
-/
theorem C6_summary_save_failure_nonblocking_witness :
    ((wSokSaveFails.summarizeResult = .ok (.text "S")) ∧
     (wSokSaveFails.saveSummaryCall = .error "ConnectionError")) ∧
    ((summarizeFlow wSokSaveFails initialState).uncaught = none ∧
     UIEvent.errorMsg ("Error saving summary to Airtable: " ++ "ConnectionError") ∈
       (summarizeFlow wSokSaveFails initialState).events ∧
     (∀ gg ∈ ["g1", "g2"], UIEvent.writeText gg ∈
       (summarizeFlow wSokSaveFails initialState).events) ∧
     UIEvent.imageShown 7 ∈ (summarizeFlow wSokSaveFails initialState).events) :=
  ⟨⟨rfl, rfl⟩,
   C6_summary_save_failure_nonblocking wSokSaveFails initialState
     "ConnectionError" (.text "S") "g1" ["g2"] ⟨"iVBORw0KGgo"⟩ [] 7
     "https://drive.example/view/1" respOk rfl rfl rfl rfl rfl rfl rfl⟩

/-! ## C3 -/

/--
C3 (counterexample).  A decode failure from `base64_to_image` is not
caught anywhere: with every earlier call succeeding (200 summary save, two
goals, one chart) and the decoder raising, the Summarize flow terminates
with the exception uncaught and without a single `st.error` event.
-/
theorem C3_counterexample :
    wDecodeFails.decodeResult =
      Except.error "binascii.Error: Invalid base64-encoded string" ∧
    (summarizeFlow wDecodeFails initialState).uncaught =
      some "binascii.Error: Invalid base64-encoded string" ∧
    (summarizeFlow wDecodeFails initialState).events.filter UIEvent.isError = [] := by
  refine ⟨rfl, rfl, ?_⟩
  decide

/--
C3 (amended).  Exceptions are caught only inside the two `try` blocks.
In either flow, an exception raised by the summarizer, the goal generator,
the visualizer, or the base64/image decode (`base64_to_image`) propagates
unhandled out of the flow, and no `st.error` is emitted for it (the events
are exactly those emitted before the raising call); an exception raised by
the summary-persistence post, the upload, or the visualization-save post
is caught at its `try` block, shown as an `st.error`, and the flow
terminates without an uncaught exception.
-/
theorem C3_exception_boundaries (wS : SummarizeWorld) (wQ : QuestionWorld)
    (s : SessionState) (q : String) (sm : SummaryV) (r : Response)
    (g : String) (gs : List String) (c : Chart) (cs : List Chart)
    (img : Image) (url : String) (e : PyErr)
    (hcsv : pathTruthy s.csv_file_path = true) (hql : q.length > 0) :
    (wS.summarizeResult = .error e →
      (summarizeFlow wS s).uncaught = some e ∧
      (summarizeFlow wS s).events = []) ∧
    (wS.summarizeResult = .ok sm → wS.saveSummaryCall = .ok r →
      r.status_code = 200 → wS.goalsResult = .error e →
      (summarizeFlow wS s).uncaught = some e ∧
      (summarizeFlow wS s).events.filter UIEvent.isError = []) ∧
    (wS.summarizeResult = .ok sm → wS.saveSummaryCall = .ok r →
      r.status_code = 200 → wS.goalsResult = .ok (g :: gs) →
      wS.visualizeResult = .error e →
      (summarizeFlow wS s).uncaught = some e ∧
      (summarizeFlow wS s).events.filter UIEvent.isError = []) ∧
    (wS.summarizeResult = .ok sm → wS.saveSummaryCall = .ok r →
      r.status_code = 200 → wS.goalsResult = .ok (g :: gs) →
      wS.visualizeResult = .ok (c :: cs) → wS.decodeResult = .error e →
      (summarizeFlow wS s).uncaught = some e ∧
      (summarizeFlow wS s).events.filter UIEvent.isError = []) ∧
    (wS.summarizeResult = .ok sm → wS.saveSummaryCall = .error e →
      wS.goalsResult = .ok (g :: gs) → wS.visualizeResult = .ok (c :: cs) →
      wS.decodeResult = .ok img → wS.uploadResult = .ok url →
      wS.saveVizCall = .ok r →
      (summarizeFlow wS s).uncaught = none ∧
      UIEvent.errorMsg ("Error saving summary to Airtable: " ++ e) ∈
        (summarizeFlow wS s).events) ∧
    (wS.summarizeResult = .ok sm → wS.saveSummaryCall = .ok r →
      wS.goalsResult = .ok (g :: gs) → wS.visualizeResult = .ok (c :: cs) →
      wS.decodeResult = .ok img → wS.uploadResult = .error e →
      (summarizeFlow wS s).uncaught = none ∧
      UIEvent.errorMsg ("Error saving visualization to Airtable: " ++ e) ∈
        (summarizeFlow wS s).events) ∧
    (wS.summarizeResult = .ok sm → wS.saveSummaryCall = .ok r →
      wS.goalsResult = .ok (g :: gs) → wS.visualizeResult = .ok (c :: cs) →
      wS.decodeResult = .ok img → wS.uploadResult = .ok url →
      wS.saveVizCall = .error e →
      (summarizeFlow wS s).uncaught = none ∧
      UIEvent.errorMsg ("Error saving visualization to Airtable: " ++ e) ∈
        (summarizeFlow wS s).events) ∧
    (wQ.summarizeResult = .error e →
      (questionFlow wQ q s).uncaught = some e ∧
      (questionFlow wQ q s).events = [UIEvent.infoMsg ("Your Query: " ++ q)]) ∧
    (wQ.summarizeResult = .ok sm → wQ.visualizeResult = .error e →
      (questionFlow wQ q s).uncaught = some e ∧
      (questionFlow wQ q s).events = [UIEvent.infoMsg ("Your Query: " ++ q)]) ∧
    (wQ.summarizeResult = .ok sm → wQ.visualizeResult = .ok (c :: cs) →
      wQ.decodeResult = .error e →
      (questionFlow wQ q s).uncaught = some e ∧
      (questionFlow wQ q s).events = [UIEvent.infoMsg ("Your Query: " ++ q)]) ∧
    (wQ.summarizeResult = .ok sm → wQ.visualizeResult = .ok (c :: cs) →
      wQ.decodeResult = .ok img → wQ.uploadResult = .error e →
      (questionFlow wQ q s).uncaught = none ∧
      UIEvent.errorMsg ("Error saving visualization to Airtable: " ++ e) ∈
        (questionFlow wQ q s).events) := by
  obtain ⟨sr, ssc, gr, vr, dr, ur, svc⟩ := wS
  obtain ⟨qsr, qvr, qdr, qur, qsvc⟩ := wQ
  refine ⟨?_, ?_, ?_, ?_, ?_, ?_, ?_, ?_, ?_, ?_, ?_⟩
  · intro h1
    simp only at h1
    subst h1
    exact ⟨rfl, rfl⟩
  · intro h1 h2 h3 h4
    simp only at h1 h2 h4
    subst h1 h2 h4
    by_cases hb : r.body.truthy <;>
      simp [summarizeFlow, save_to_airtable_summaries, h3, hb, UIEvent.isError]
  · intro h1 h2 h3 h4 h5
    simp only at h1 h2 h4 h5
    subst h1 h2 h4 h5
    by_cases hb : r.body.truthy <;>
      simp [summarizeFlow, save_to_airtable_summaries, h3, hb, UIEvent.isError,
        List.filter_eq_nil_iff]
  · intro h1 h2 h3 h4 h5 h6
    simp only at h1 h2 h4 h5 h6
    subst h1 h2 h4 h5 h6
    by_cases hb : r.body.truthy <;>
      simp [summarizeFlow, save_to_airtable_summaries, h3, hb, UIEvent.isError,
        List.filter_eq_nil_iff]
  · intro h1 h2 h3 h4 h5 h6 h7
    simp only at h1 h2 h3 h4 h5 h6 h7
    subst h1 h2 h3 h4 h5 h6 h7
    by_cases ht : (save_to_airtable_visualizations r).2.truthy <;>
      simp [summarizeFlow, uploadPersistStep, ht]
  · intro h1 h2 h3 h4 h5 h6
    simp only at h1 h2 h3 h4 h5 h6
    subst h1 h2 h3 h4 h5 h6
    exact ⟨by simp [summarizeFlow, uploadPersistStep],
      by simp [summarizeFlow, uploadPersistStep]⟩
  · intro h1 h2 h3 h4 h5 h6 h7
    simp only at h1 h2 h3 h4 h5 h6 h7
    subst h1 h2 h3 h4 h5 h6 h7
    exact ⟨by simp [summarizeFlow, uploadPersistStep],
      by simp [summarizeFlow, uploadPersistStep]⟩
  · intro h1
    simp only at h1
    subst h1
    simp [questionFlow, hcsv, hql]
  · intro h1 h2
    simp only at h1 h2
    subst h1 h2
    simp [questionFlow, hcsv, hql]
  · intro h1 h2 h3
    simp only at h1 h2 h3
    subst h1 h2 h3
    simp [questionFlow, hcsv, hql]
  · intro h1 h2 h3 h4
    simp only at h1 h2 h3 h4
    subst h1 h2 h3 h4
    exact ⟨by simp [questionFlow, hcsv, hql, uploadPersistStep],
      by simp [questionFlow, hcsv, hql, uploadPersistStep]⟩

/--
C3 (witness): each boundary concretely — the four uncaught sites of the
Summarize flow, its three caught call sites, and the Question flow's
uncaught summarize/visualize/decode plus its caught upload.
-/
theorem C3_exception_boundaries_witness :
    ((summarizeFlow wSummarizeRaises sWithCsv).uncaught = some "APIError" ∧
     (summarizeFlow wSummarizeRaises sWithCsv).events = []) ∧
    ((summarizeFlow wGoalsRaise sWithCsv).uncaught = some "RateLimitError" ∧
     (summarizeFlow wGoalsRaise sWithCsv).events.filter UIEvent.isError = []) ∧
    ((summarizeFlow wVizRaise sWithCsv).uncaught = some "ValueError" ∧
     (summarizeFlow wVizRaise sWithCsv).events.filter UIEvent.isError = []) ∧
    ((summarizeFlow wDecodeFails sWithCsv).uncaught =
       some "binascii.Error: Invalid base64-encoded string" ∧
     (summarizeFlow wDecodeFails sWithCsv).events.filter UIEvent.isError = []) ∧
    ((summarizeFlow wSokSaveFails sWithCsv).uncaught = none ∧
     UIEvent.errorMsg ("Error saving summary to Airtable: " ++ "ConnectionError") ∈
       (summarizeFlow wSokSaveFails sWithCsv).events) ∧
    ((summarizeFlow wUploadFails sWithCsv).uncaught = none ∧
     UIEvent.errorMsg ("Error saving visualization to Airtable: " ++ "HttpError 403") ∈
       (summarizeFlow wUploadFails sWithCsv).events) ∧
    ((summarizeFlow wSaveVizRaises sWithCsv).uncaught = none ∧
     UIEvent.errorMsg ("Error saving visualization to Airtable: " ++ "Timeout") ∈
       (summarizeFlow wSaveVizRaises sWithCsv).events) ∧
    ((questionFlow wQsummarizeRaises "query" sWithCsv).uncaught = some "APIError" ∧
     (questionFlow wQsummarizeRaises "query" sWithCsv).events =
       [UIEvent.infoMsg ("Your Query: " ++ "query")]) ∧
    ((questionFlow wQvizRaise "query" sWithCsv).uncaught = some "ValueError" ∧
     (questionFlow wQvizRaise "query" sWithCsv).events =
       [UIEvent.infoMsg ("Your Query: " ++ "query")]) ∧
    ((questionFlow wQdecodeFails "query" sWithCsv).uncaught =
       some "binascii.Error: Invalid base64-encoded string" ∧
     (questionFlow wQdecodeFails "query" sWithCsv).events =
       [UIEvent.infoMsg ("Your Query: " ++ "query")]) ∧
    ((questionFlow wQuploadFails "query" sWithCsv).uncaught = none ∧
     UIEvent.errorMsg ("Error saving visualization to Airtable: " ++ "HttpError 403") ∈
       (questionFlow wQuploadFails "query" sWithCsv).events) := by
  have hA := C3_exception_boundaries wSummarizeRaises wQsummarizeRaises sWithCsv
    "query" (.text "S") respOk "g1" ["g2"] ⟨"iVBORw0KGgo"⟩ [] 7
    "https://drive.example/view/1" "APIError" (by decide) (by decide)
  have hB := C3_exception_boundaries wGoalsRaise wQok sWithCsv
    "query" (.text "S") respOk "g1" ["g2"] ⟨"iVBORw0KGgo"⟩ [] 7
    "https://drive.example/view/1" "RateLimitError" (by decide) (by decide)
  have hC := C3_exception_boundaries wVizRaise wQvizRaise sWithCsv
    "query" (.text "S") respOk "g1" ["g2"] ⟨"iVBORw0KGgo"⟩ [] 7
    "https://drive.example/view/1" "ValueError" (by decide) (by decide)
  have hD := C3_exception_boundaries wDecodeFails wQdecodeFails sWithCsv
    "query" (.text "S") respOk "g1" ["g2"] ⟨"iVBORw0KGgo"⟩ [] 7
    "https://drive.example/view/1"
    "binascii.Error: Invalid base64-encoded string" (by decide) (by decide)
  have hE := C3_exception_boundaries wSokSaveFails wQok sWithCsv
    "query" (.text "S") respOk "g1" ["g2"] ⟨"iVBORw0KGgo"⟩ [] 7
    "https://drive.example/view/1" "ConnectionError" (by decide) (by decide)
  have hF := C3_exception_boundaries wUploadFails wQok sWithCsv
    "query" (.text "S") respOk "g1" ["g2"] ⟨"iVBORw0KGgo"⟩ [] 7
    "https://drive.example/view/1" "HttpError 403" (by decide) (by decide)
  have hG := C3_exception_boundaries wSaveVizRaises wQok sWithCsv
    "query" (.text "S") respOk "g1" ["g2"] ⟨"iVBORw0KGgo"⟩ [] 7
    "https://drive.example/view/1" "Timeout" (by decide) (by decide)
  have hH := C3_exception_boundaries wSok wQvizRaise sWithCsv
    "query" (.text "S") respOk "g1" ["g2"] ⟨"iVBORw0KGgo"⟩ [] 9
    "https://drive.example/view/2" "ValueError" (by decide) (by decide)
  have hI := C3_exception_boundaries wSok wQdecodeFails sWithCsv
    "query" (.text "S") respOk "g1" ["g2"] ⟨"iVBORw0KGgo"⟩ [] 9
    "https://drive.example/view/2"
    "binascii.Error: Invalid base64-encoded string" (by decide) (by decide)
  have hJ := C3_exception_boundaries wSok wQuploadFails sWithCsv
    "query" (.text "S") respOk "g1" ["g2"] ⟨"iVBORw0KGgo"⟩ [] 9
    "https://drive.example/view/2" "HttpError 403" (by decide) (by decide)
  refine ⟨hA.1 rfl, hB.2.1 rfl rfl rfl rfl, hC.2.2.1 rfl rfl rfl rfl rfl,
    hD.2.2.2.1 rfl rfl rfl rfl rfl rfl, hE.2.2.2.2.1 rfl rfl rfl rfl rfl rfl rfl,
    hF.2.2.2.2.2.1 rfl rfl rfl rfl rfl rfl,
    hG.2.2.2.2.2.2.1 rfl rfl rfl rfl rfl rfl rfl,
    hA.2.2.2.2.2.2.2.1 rfl, hH.2.2.2.2.2.2.2.2.1 rfl rfl,
    hI.2.2.2.2.2.2.2.2.2.1 rfl rfl rfl,
    hJ.2.2.2.2.2.2.2.2.2.2 rfl rfl rfl rfl⟩

/-! ## C4 -/

/--
C4 (counterexample).  The claim says the decoded chart is displayed before
the upload, so the user sees it even when the upload fails.  In the code,
`st.image(img)` sits after `upload_image_to_drive(img)` inside the same
`try`: with the decoder succeeding and the upload raising, the Summarize
flow emits no `st.image` event at all.
-/
theorem C4_counterexample :
    wUploadFails.decodeResult = Except.ok 7 ∧
    wUploadFails.uploadResult = Except.error "HttpError 403" ∧
    (summarizeFlow wUploadFails initialState).events.filter UIEvent.isImage = [] := by
  refine ⟨rfl, rfl, ?_⟩
  decide

/--
C4 (amended).  In the Summarize flow the bitmap is displayed only after
the upload call returns: when the upload raises, no image is shown; when
the upload succeeds, the image is shown (whether or not the subsequent
save succeeds).
-/
theorem C4_image_shown_only_after_upload (w : SummarizeWorld)
    (s : SessionState) (sm : SummaryV) (r : Response) (g : String)
    (gs : List String) (c : Chart) (cs : List Chart) (img : Image)
    (h1 : w.summarizeResult = .ok sm)
    (h2 : w.saveSummaryCall = .ok r)
    (h3 : w.goalsResult = .ok (g :: gs))
    (h4 : w.visualizeResult = .ok (c :: cs))
    (h5 : w.decodeResult = .ok img) :
    (∀ e, w.uploadResult = .error e →
      (summarizeFlow w s).events.filter UIEvent.isImage = []) ∧
    (∀ url, w.uploadResult = .ok url →
      UIEvent.imageShown img ∈ (summarizeFlow w s).events) := by
  obtain ⟨sr, ssc, gr, vr, dr, ur, svc⟩ := w
  simp only at h1 h2 h3 h4 h5
  subst h1 h2 h3 h4 h5
  constructor
  · intro e hu
    simp only at hu
    subst hu
    by_cases hr : r.status_code = 200 <;>
      by_cases hb : r.body.truthy <;>
        simp [summarizeFlow, uploadPersistStep, save_to_airtable_summaries, hr, hb,
          UIEvent.isImage, List.filter_eq_nil_iff]
  · intro url hu
    simp only at hu
    subst hu
    cases svc with
    | error e => simp [summarizeFlow, uploadPersistStep]
    | ok resp =>
      by_cases ht : (save_to_airtable_visualizations resp).2.truthy <;>
        simp [summarizeFlow, uploadPersistStep, ht]

/--
C4 (witness): concretely, the upload-failure world shows no image, even
though decoding succeeded.
-/
theorem C4_image_shown_only_after_upload_witness :
    (wUploadFails.decodeResult = .ok 7 ∧
     wUploadFails.uploadResult = .error "HttpError 403") ∧
    (summarizeFlow wUploadFails initialState).events.filter UIEvent.isImage = [] :=
  ⟨⟨rfl, rfl⟩,
   (C4_image_shown_only_after_upload wUploadFails initialState (.text "S")
      respOk "g1" ["g2"] ⟨"iVBORw0KGgo"⟩ [] 7 rfl rfl rfl rfl rfl).1
     "HttpError 403" rfl⟩

/-! ## C8 -/

/--
C8 (counterexample).  The claim says all required credentials — including
the storage-service credentials — are read from configuration, with any
missing one aborting startup.  In the code the Google Drive credentials
come from the hardcoded `SERVICE_ACCOUNT_FILE` path, not from
configuration: startup succeeds on an environment that defines only the
AI key and the four Airtable variables and contains no storage-service
credential under any name.
-/
theorem C8_counterexample :
    startup envNoStorage readAnyOk = Except.ok () ∧
    envNoStorage "GOOGLE_APPLICATION_CREDENTIALS" = none ∧
    envNoStorage "GOOGLE_SERVICE_ACCOUNT_JSON" = none := by
  refine ⟨rfl, rfl, rfl⟩

/--
C8 (amended).  At startup the AI API key, the spreadsheet base identifier,
the two table names and the spreadsheet access token are read from
configuration, and a missing (or, for the Airtable four, empty) value
aborts startup with a descriptive `ValueError` before any flow can run.
The storage-service credentials are not read from configuration: they are
loaded from a hardcoded file path, and startup aborts with the loader's
own exception when that load fails.
-/
theorem C8_startup_checks (env : String → Option String)
    (readFile : String → Except PyErr Unit) (e : PyErr) :
    (env "OPENAI_API_KEY" = none →
      startup env readFile = .error "ValueError: OpenAI API key is not set.") ∧
    ((env "OPENAI_API_KEY").isSome = true →
      ¬ (envTruthy (env "AIRTABLE_BASE_ID") = true ∧
         envTruthy (env "AIRTABLE_SUMMARIES_TABLE_NAME") = true ∧
         envTruthy (env "AIRTABLE_VISUALIZATIONS_TABLE_NAME") = true ∧
         envTruthy (env "AIRTABLE_PAT") = true) →
      startup env readFile = .error "ValueError: Airtable credentials are not set.") ∧
    ((env "OPENAI_API_KEY").isSome = true →
      envTruthy (env "AIRTABLE_BASE_ID") = true →
      envTruthy (env "AIRTABLE_SUMMARIES_TABLE_NAME") = true →
      envTruthy (env "AIRTABLE_VISUALIZATIONS_TABLE_NAME") = true →
      envTruthy (env "AIRTABLE_PAT") = true →
      readFile SERVICE_ACCOUNT_FILE = .error e →
      startup env readFile = .error e) := by
  refine ⟨?_, ?_, ?_⟩
  · intro h
    simp [startup, h]
  · intro h1 h2
    cases henv : env "OPENAI_API_KEY" with
    | none => rw [henv] at h1; simp at h1
    | some v => simp [startup, henv, h2]
  · intro h1 ha hb hc hd hf
    cases henv : env "OPENAI_API_KEY" with
    | none => rw [henv] at h1; simp at h1
    | some v => simp [startup, henv, ha, hb, hc, hd, hf]

/--
C8 (witness): concretely, an environment lacking the AI key aborts with
the descriptive error, and one with empty Airtable variables aborts with
the Airtable error.
-/
theorem C8_startup_checks_witness :
    ((fun _ => (none : Option String)) "OPENAI_API_KEY" = none ∧
     startup (fun _ => none) readAnyOk =
       .error "ValueError: OpenAI API key is not set.") ∧
    ((envNoStorage "OPENAI_API_KEY").isSome = true ∧
     startup envNoStorage (fun _ => Except.error "FileNotFoundError") =
       .error "FileNotFoundError") :=
  ⟨⟨rfl, (C8_startup_checks (fun _ => none) readAnyOk "x").1 rfl⟩,
   ⟨rfl, (C8_startup_checks envNoStorage
       (fun _ => Except.error "FileNotFoundError") "FileNotFoundError").2.2
     rfl rfl rfl rfl rfl rfl⟩⟩

/-! ## C9 -/

/--
C9 (counterexample).  The claim says the error body returned for a non-2xx
save is always truthy, so the success branch always runs.  With the post
returning a 500 whose JSON body is the empty object — a falsy Python
value — `if result:` is false: no success message is shown and no chart is
appended, while the `st.error` from the saver is still emitted.
-/
theorem C9_counterexample :
    resp500empty.status_code ≠ 200 ∧
    (save_to_airtable_visualizations resp500empty).2.truthy = false ∧
    (questionFlow wQviz500empty "query" sWithCsv).events.filter UIEvent.isSuccess = [] ∧
    (questionFlow wQviz500empty "query" sWithCsv).state.generated_charts = [] ∧
    (questionFlow wQviz500empty "query" sWithCsv).state.chart_names = [] := by
  refine ⟨by decide, rfl, ?_, rfl, rfl⟩
  decide

/--
C9 (amended).  In both flows, when the visualization-save post returns a
non-2xx response whose JSON body is truthy (as Airtable error objects
are), the `if result:` success branch still executes: the saver's
`st.error` is shown, then "saved successfully" is shown and the chart is
appended to session state despite the failed save.
-/
theorem C9_truthy_error_body_success_branch (wS : SummarizeWorld)
    (wQ : QuestionWorld) (s : SessionState) (q : String) (sm smq : SummaryV)
    (rs r : Response) (g : String) (gs : List String) (c cq : Chart)
    (cs csq : List Chart) (imgS imgQ : Image) (urlS urlQ : String)
    (h1 : wS.summarizeResult = .ok sm) (h2 : wS.saveSummaryCall = .ok rs)
    (h3 : wS.goalsResult = .ok (g :: gs)) (h4 : wS.visualizeResult = .ok (c :: cs))
    (h5 : wS.decodeResult = .ok imgS) (h6 : wS.uploadResult = .ok urlS)
    (h7 : wS.saveVizCall = .ok r)
    (hq1 : wQ.summarizeResult = .ok smq) (hq2 : wQ.visualizeResult = .ok (cq :: csq))
    (hq3 : wQ.decodeResult = .ok imgQ) (hq4 : wQ.uploadResult = .ok urlQ)
    (hq5 : wQ.saveVizCall = .ok r)
    (hr : r.status_code ≠ 200) (hb : r.body.truthy = true)
    (hcsv : pathTruthy s.csv_file_path = true) (hql : q.length > 0) :
    (UIEvent.errorMsg ("Failed to save visualization to Airtable: " ++ r.body.selfRepr) ∈
       (summarizeFlow wS s).events ∧
     UIEvent.successMsg "Visualization saved to Airtable successfully!" ∈
       (summarizeFlow wS s).events ∧
     (summarizeFlow wS s).state.generated_charts = s.generated_charts ++ [imgS] ∧
     (summarizeFlow wS s).state.chart_names = s.chart_names ++ ["Summary Chart"]) ∧
    (UIEvent.errorMsg ("Failed to save visualization to Airtable: " ++ r.body.selfRepr) ∈
       (questionFlow wQ q s).events ∧
     UIEvent.successMsg "Visualization saved to Airtable successfully!" ∈
       (questionFlow wQ q s).events ∧
     (questionFlow wQ q s).state.generated_charts = s.generated_charts ++ [imgQ] ∧
     (questionFlow wQ q s).state.chart_names = s.chart_names ++ [q]) := by
  obtain ⟨sr, ssc, gr, vr, dr, ur, svc⟩ := wS
  obtain ⟨qsr, qvr, qdr, qur, qsvc⟩ := wQ
  simp only at h1 h2 h3 h4 h5 h6 h7 hq1 hq2 hq3 hq4 hq5
  subst h1 h2 h3 h4 h5 h6 h7 hq1 hq2 hq3 hq4 hq5
  constructor
  · simp [summarizeFlow, uploadPersistStep, save_to_airtable_visualizations, hr, hb]
  · simp [questionFlow, uploadPersistStep, save_to_airtable_visualizations,
      hr, hb, hcsv, hql]

/--
C9 (witness): concretely, a 500 response with the truthy body
`\x7b"error": "INTERNAL"\x7d` makes both flows show the failure error, then
the success message, and append the chart.
-/
theorem C9_truthy_error_body_success_branch_witness :
    ((save_to_airtable_visualizations ⟨500, ⟨"\x7b\x22error\x22: \x22INTERNAL\x22\x7d", true⟩⟩).2.truthy = true ∧
     pathTruthy sWithCsv.csv_file_path = true) ∧
    (UIEvent.successMsg "Visualization saved to Airtable successfully!" ∈
       (summarizeFlow wSviz500 sWithCsv).events ∧
     UIEvent.successMsg "Visualization saved to Airtable successfully!" ∈
       (questionFlow wQviz500 "query" sWithCsv).events ∧
     (summarizeFlow wSviz500 sWithCsv).state.chart_names = ["Summary Chart"] ∧
     (questionFlow wQviz500 "query" sWithCsv).state.chart_names = ["query"]) := by
  have h := C9_truthy_error_body_success_branch wSviz500 wQviz500 sWithCsv "query"
    (.text "S") (.text "S") respOk ⟨500, ⟨"\x7b\x22error\x22: \x22INTERNAL\x22\x7d", true⟩⟩
    "g1" ["g2"] ⟨"iVBORw0KGgo"⟩ ⟨"iVBORw0KGgo"⟩ [] [] 7 9
    "https://drive.example/view/1" "https://drive.example/view/2"
    rfl rfl rfl rfl rfl rfl rfl rfl rfl rfl rfl rfl (by decide) rfl rfl (by decide)
  exact ⟨⟨rfl, rfl⟩, ⟨h.1.2.1, h.2.2.1, by rw [h.1.2.2.2]; rfl, by rw [h.2.2.2.2]; rfl⟩⟩

/-! ## C10 -/

/--
C10.  Both flows index the external results without an emptiness guard:
when the goal generator returns `[]` the Summarize flow's `goals[0]`
raises, when the visualizer returns `[]` the `charts[0]` access raises in
either flow — in every case the `IndexError` escapes uncaught (no
`try/except` surrounds these reads) and, with all earlier calls benign, no
`st.error` is shown for it.
-/
theorem C10_empty_results_uncaught_IndexError (wS wS2 : SummarizeWorld)
    (wQ : QuestionWorld) (s : SessionState) (q : String) (sm sm2 smq : SummaryV)
    (r r2 : Response) (g : String) (gs2 : List String)
    (h1 : wS.summarizeResult = .ok sm) (h2 : wS.saveSummaryCall = .ok r)
    (h3 : r.status_code = 200) (h4 : wS.goalsResult = .ok [])
    (h5 : wS2.summarizeResult = .ok sm2) (h6 : wS2.saveSummaryCall = .ok r2)
    (h7 : r2.status_code = 200) (h8 : wS2.goalsResult = .ok (g :: gs2))
    (h9 : wS2.visualizeResult = .ok [])
    (hq1 : wQ.summarizeResult = .ok smq) (hq2 : wQ.visualizeResult = .ok [])
    (hcsv : pathTruthy s.csv_file_path = true) (hql : q.length > 0) :
    ((summarizeFlow wS s).uncaught = some indexErrorMsg ∧
     (summarizeFlow wS s).events.filter UIEvent.isError = []) ∧
    ((summarizeFlow wS2 s).uncaught = some indexErrorMsg ∧
     (summarizeFlow wS2 s).events.filter UIEvent.isError = []) ∧
    ((questionFlow wQ q s).uncaught = some indexErrorMsg ∧
     (questionFlow wQ q s).events.filter UIEvent.isError = []) := by
  obtain ⟨sr, ssc, gr, vr, dr, ur, svc⟩ := wS
  obtain ⟨sr2, ssc2, gr2, vr2, dr2, ur2, svc2⟩ := wS2
  obtain ⟨qsr, qvr, qdr, qur, qsvc⟩ := wQ
  simp only at h1 h2 h4 h5 h6 h8 h9 hq1 hq2
  subst h1 h2 h4 h5 h6 h8 h9 hq1 hq2
  refine ⟨⟨?_, ?_⟩, ⟨?_, ?_⟩, ⟨?_, ?_⟩⟩
  · simp [summarizeFlow]
  · by_cases hb : r.body.truthy <;>
      simp [summarizeFlow, save_to_airtable_summaries, h3, hb, UIEvent.isError]
  · simp [summarizeFlow]
  · by_cases hb : r2.body.truthy <;>
      simp [summarizeFlow, save_to_airtable_summaries, h7, hb, UIEvent.isError,
        List.filter_eq_nil_iff]
  · simp [questionFlow, hcsv, hql]
  · simp [questionFlow, hcsv, hql, UIEvent.isError]

/--
C10 (witness): concretely, an empty goal list, an empty chart list in the
Summarize flow, and an empty chart list in the Question flow each end with
the uncaught IndexError and zero error messages.
-/
theorem C10_empty_results_uncaught_IndexError_witness :
    (wGoalsEmpty.goalsResult = .ok [] ∧ wChartsEmpty.visualizeResult = .ok [] ∧
     wQchartsEmpty.visualizeResult = .ok [] ∧
     pathTruthy sWithCsv.csv_file_path = true) ∧
    (((summarizeFlow wGoalsEmpty sWithCsv).uncaught = some indexErrorMsg ∧
      (summarizeFlow wGoalsEmpty sWithCsv).events.filter UIEvent.isError = []) ∧
     ((summarizeFlow wChartsEmpty sWithCsv).uncaught = some indexErrorMsg ∧
      (summarizeFlow wChartsEmpty sWithCsv).events.filter UIEvent.isError = []) ∧
     ((questionFlow wQchartsEmpty "query" sWithCsv).uncaught = some indexErrorMsg ∧
      (questionFlow wQchartsEmpty "query" sWithCsv).events.filter UIEvent.isError = [])) :=
  ⟨⟨rfl, rfl, rfl, rfl⟩,
   C10_empty_results_uncaught_IndexError wGoalsEmpty wChartsEmpty wQchartsEmpty
     sWithCsv "query" (.text "S") (.text "S") (.text "S") respOk respOk "g1" ["g2"]
     rfl rfl rfl rfl rfl rfl rfl rfl rfl rfl rfl rfl (by decide)⟩
